import Mathlib

/-!
Verification of the sandboxed command-execution core of `linux_bot_controller`
(a Telegram remote-administration bot) against its design document.

The Python sources under `bot/` are shallowly embedded here:

* filesystem paths are modelled as lists of path components (an absolute
  POSIX path `/a/b` is `["a", "b"]`); `Path.resolve()` is modelled as the
  lexical canonicalisation `resolveAbs` that collapses `.`, `..` and empty
  components (symlink following is a filesystem effect outside a pure
  model, so canonical forms here are the lexical ones);
* Python strings are Lean `String`s, with small helpers (`pyStrip`,
  `pySplitWs`, ...) mirroring the exact semantics of the `str` methods the
  code uses;
* handlers that perform I/O are embedded as pure functions that return the
  list of externally visible effects they perform, with the outcomes of
  the I/O operations they consult (child process behaviour, file
  existence, delivery failures) passed in as explicit parameters.
-/

namespace BotCtl

/-! ### Character and string helpers mirroring the Python `str` methods -/

/-- The whitespace set of the Python methods `str.strip()` / `str.split()`
(ASCII portion: space, tab, newline, carriage return, vertical tab,
form feed). -/
def pySpace (c : Char) : Bool :=
  c = ' ' || c = '\t' || c = '\n' || c = '\r' || c = '\x0b' || c = '\x0c'

/-- Python `str.strip()`: drop leading and trailing whitespace. -/
def pyStrip (s : String) : String :=
  String.mk (((s.data.dropWhile pySpace).reverse.dropWhile pySpace).reverse)

/-- Boolean list-prefix test on characters (used to model `str.startswith`). -/
def isPrefixB : List Char → List Char → Bool
  | [], _ => true
  | _ :: _, [] => false
  | a :: as, b :: bs => a = b && isPrefixB as bs

/-- Python `s.startswith(p)`. -/
def startsWithS (s p : String) : Bool := isPrefixB p.data s.data

/-- Python `s.endswith(p)`. -/
def endsWithS (s p : String) : Bool := isPrefixB p.data.reverse s.data.reverse

/-- Split a character list at every character satisfying `p`
(empty pieces kept, as in repeated separators). -/
def splitBy (p : Char → Bool) : List Char → List (List Char)
  | [] => [[]]
  | c :: cs =>
    let r := splitBy p cs
    if p c then [] :: r
    else
      match r with
      | [] => [[c]]
      | h :: t => (c :: h) :: t

/-- Python `str.split()` with no arguments: split on whitespace runs,
discarding empty pieces. -/
def pySplitWs (s : String) : List String :=
  ((splitBy pySpace s.data).map String.mk).filter (· ≠ "")

/-- Python `str.split(maxsplit=1)`: at most one split on a whitespace run;
an all-whitespace (or empty) string yields `[]`. -/
def pySplitMax1 (s : String) : List String :=
  let l := s.data.dropWhile pySpace
  if l = [] then []
  else
    let tok := l.takeWhile (fun c => !pySpace c)
    let rest := (l.dropWhile (fun c => !pySpace c)).dropWhile pySpace
    if rest = [] then [String.mk tok] else [String.mk tok, String.mk rest]

/-- Python `str.lower()` (ASCII portion, which is all the code compares). -/
def lowerS (s : String) : String := String.mk (s.data.map Char.toLower)

/-- Python `s[1:]`. -/
def strTail (s : String) : String := String.mk s.data.tail

/-- Python `a or b or ""` on two optional strings (`None` and `""` are
both falsy). -/
def pyOrS (a b : Option String) : String :=
  match a with
  | some s => if s = "" then b.getD "" else s
  | none => b.getD ""

/-! ### Path model: `bot/handlers.py` `_resolve_under` / `_ensure_inside` -/

/-- One step of lexical path canonicalisation: empty and `.` components are
dropped, `..` removes the previous component (as at the filesystem root,
`..` at the start stays at the root). -/
def stepComp (acc : List String) (c : String) : List String :=
  if c = "" ∨ c = "." then acc
  else if c = ".." then acc.dropLast
  else acc ++ [c]

/-- Lexical model of `Path.resolve()` on an absolute path given by its
components. -/
def resolveAbs (l : List String) : List String := l.foldl stepComp []

/-- Components of a relative path string: split on `/`, dropping empty
pieces (as `pathlib` does when joining). -/
def splitRel (s : String) : List String :=
  ((splitBy (· = '/') s.data).map String.mk).filter (· ≠ "")

/-- `bot/handlers.py` `_resolve_under(base_dir, raw)`.  `absR` models the
environment-dependent branch `Path(os.path.expanduser(raw)).resolve()`
taken for raw strings starting with `/` or `~` (its result depends on the
home directory, the working directory and symlinks, none of which a pure
model fixes); every claim below is about the other branches and holds for
every `absR`. -/
def resolve_under (absR : String → List String) (base_dir : List String) (raw : String) :
    List String :=
  let raw1 := pyStrip raw
  if raw1 = "" ∨ raw1 = "." then resolveAbs base_dir
  else if startsWithS raw1 "/" || startsWithS raw1 "~" then absR raw1
  else resolveAbs (base_dir ++ splitRel raw1)

/-- `os.path.commonpath` on two absolute paths: the longest common
component-wise prefix (Python computes exactly this for two paths). -/
def commonPre : List String → List String → List String
  | a :: as, b :: bs => if a = b then a :: commonPre as bs else []
  | _, _ => []

/-- `bot/handlers.py` `_ensure_inside(base_dir, path)`: resolve both and
raise `PermissionError` unless `commonpath([base]) == commonpath([base,
target])`.  (`commonpath` of the singleton of an already-canonical path is
that path itself.  The `FileNotFoundError` fallback in the source is dead
under non-strict `Path.resolve()`, which does not raise on missing
components.) -/
def ensure_inside (base_dir target : List String) : Except String Unit :=
  if resolveAbs base_dir = commonPre (resolveAbs base_dir) (resolveAbs target) then
    Except.ok ()
  else Except.error "Path escapes BASE_DIR"

/-! ### Lemmas about the path model -/

theorem foldl_stepComp_no_dotdot (l : List String) (h : ".." ∉ l) (acc : List String) :
    List.foldl stepComp acc l = acc ++ l.filter (fun c => !(c = "" || c = ".")) := by
  induction l generalizing acc with
  | nil => simp
  | cons a as ih =>
    have ha : a ≠ ".." := fun e => h (e ▸ List.mem_cons_self a as)
    have htl : ".." ∉ as := fun m => h (List.mem_cons_of_mem a m)
    by_cases hd : a = "" ∨ a = "."
    · have hs : stepComp acc a = acc := by simp [stepComp, hd]
      have hf : (a = "" || a = ".") = true := by
        rcases hd with h1 | h1 <;> simp [h1]
      simp only [List.foldl_cons, hs, List.filter_cons, hf]
      exact ih htl acc
    · have hs : stepComp acc a = acc ++ [a] := by
        simp [stepComp, hd, ha]
      rw [List.foldl_cons, hs, ih htl (acc ++ [a])]
      have hfneg : (a = "" || a = ".") = false := by
        push_neg at hd
        simp [hd.1, hd.2]
      simp [List.filter_cons, hfneg]
      push_neg at hd
      rw [if_pos hd]

theorem resolveAbs_append (a b : List String) :
    resolveAbs (a ++ b) = List.foldl stepComp (resolveAbs a) b := by
  simp [resolveAbs, List.foldl_append]

theorem commonPre_eq_self_iff :
    ∀ a b : List String, commonPre a b = a ↔ a <+: b := by
  intro a
  induction a with
  | nil =>
    intro b
    cases b <;> simp [commonPre]
  | cons x xs ih =>
    intro b
    cases b with
    | nil =>
      simp [commonPre]
    | cons y ys =>
      by_cases hxy : x = y
      · subst hxy
        simp [commonPre, ih ys, List.cons_prefix_cons]
      · simp [commonPre, hxy, List.cons_prefix_cons]

/-! ### Claim C1 -/

/-- Claim C1, as stated, is false on the code: a relative raw string made
of `..` segments resolves to an ancestor of the base directory, not a
descendant.  Concretely, `_resolve_under(["home","sandbox"],
"../secrets")` canonicalises to `["home","secrets"]`, which the resolved
base is not a prefix of, even though the raw string starts with neither
`/` nor `~`. -/
theorem c1_counterexample :
    startsWithS (pyStrip "../secrets") "/" = false ∧
    startsWithS (pyStrip "../secrets") "~" = false ∧
    resolve_under (fun _ => []) ["home", "sandbox"] "../secrets" = ["home", "secrets"] ∧
    ¬ (resolveAbs ["home", "sandbox"] <+:
        resolve_under (fun _ => []) ["home", "sandbox"] "../secrets") := by
  refine ⟨rfl, rfl, rfl, ?_⟩
  decide

/-- Claim C1 (corrected): for every raw argument string that does not
start with `/` or `~` *and contains no `..` segment*, the path returned by
`_resolve_under(base_dir, raw)` is a descendant of `base_dir` after
canonicalization — the resolved base is a component-wise prefix of the
result.  (Raw strings containing `..` segments can escape, which is why
callers must still pass the result through `_ensure_inside`.) -/
theorem c1_resolve_under_descendant (absR : String → List String)
    (base_dir : List String) (raw : String)
    (h1 : startsWithS (pyStrip raw) "/" = false)
    (h2 : startsWithS (pyStrip raw) "~" = false)
    (h3 : ".." ∉ splitRel (pyStrip raw)) :
    resolveAbs base_dir <+: resolve_under absR base_dir raw := by
  unfold resolve_under
  by_cases he : pyStrip raw = "" ∨ pyStrip raw = "."
  · simp only [he, if_pos]
    exact List.prefix_refl _
  · simp only [he, if_neg, h1, h2, Bool.or_self, Bool.false_eq_true, if_false]
    rw [resolveAbs_append, foldl_stepComp_no_dotdot _ h3]
    exact ⟨_, rfl⟩

/-- Witness for the corrected statement of C1 at a concrete input: the benign
relative path `docs/readme.txt` under base `/home/sandbox` stays inside. -/
theorem c1_witness :
    resolveAbs ["home", "sandbox"] <+:
      resolve_under (fun _ => []) ["home", "sandbox"] "docs/readme.txt" :=
  c1_resolve_under_descendant (fun _ => []) ["home", "sandbox"] "docs/readme.txt"
    (by decide) (by decide) (by decide)

/-! ### Claim C2 -/

/-- Claim C2 (confirmed): `_ensure_inside(base_dir, p)` raises
`PermissionError` exactly when the canonical form of `p` lies outside the
canonical sandbox root — i.e. when the resolved base is not a
component-wise prefix of the resolved target — and never raises for a
path inside the root.  The containment test is component-wise, not a
string-prefix test: for root `/base`, the sibling `/base-evil` is
rejected even though `/base` is a string prefix of `/base-evil`, while
`/base/notes.txt` passes. -/
theorem c2_ensure_inside_component_wise :
    (∀ base p : List String,
      ensure_inside base p = Except.error "Path escapes BASE_DIR" ↔
        ¬ (resolveAbs base <+: resolveAbs p)) ∧
    ensure_inside ["base"] ["base-evil"] = Except.error "Path escapes BASE_DIR" ∧
    startsWithS "/base-evil" "/base" = true ∧
    ensure_inside ["base"] ["base", "notes.txt"] = Except.ok () := by
  refine ⟨?_, rfl, rfl, rfl⟩
  intro base p
  unfold ensure_inside
  constructor
  · intro he hp
    have hc : resolveAbs base = commonPre (resolveAbs base) (resolveAbs p) :=
      ((commonPre_eq_self_iff _ _).mpr hp).symm
    rw [if_pos hc] at he
    exact Except.noConfusion he
  · intro hn
    have hc : ¬ resolveAbs base = commonPre (resolveAbs base) (resolveAbs p) := by
      intro h
      exact hn ((commonPre_eq_self_iff _ _).mp h.symm)
    rw [if_neg hc]

/-! ### Tokenizer model: `shlex.split(cmd, posix=True)` and the allowlist -/

/-- The single-quote character (written by code point to keep character
literals simple). -/
def chSq : Char := Char.ofNat 39

/-- The double-quote character. -/
def chDq : Char := Char.ofNat 34

/-- The backslash character. -/
def chBs : Char := Char.ofNat 92

/-- `shlex` whitespace (`shlex.whitespace = " \t\r\n"`). -/
def shSpace (c : Char) : Bool := c = ' ' || c = '\t' || c = '\r' || c = '\n'

/-- Quoting state of the `shlex` state machine. -/
inductive ShState
  | outside
  | inSingle
  | inDouble
deriving DecidableEq

/-- Append the pending token, if one is in progress, to the token list. -/
def shEmit (toks : List (List Char)) (cur : Option (List Char)) : List (List Char) :=
  match cur with
  | none => toks
  | some t => toks ++ [t]

/-- The `shlex.split(_, posix=True)` state machine (whitespace-split mode,
no comment handling, as `shlex.split` configures it): quotes group, a
backslash outside quotes escapes the next character, inside double quotes
it escapes only the double quote and itself, single quotes are fully
literal.  An unterminated quote yields `No closing quotation`; a trailing
backslash yields `No escaped character` — the Python code catches these
and falls back to naive whitespace splitting. -/
def shlexLoop : ShState → Option (List Char) → List (List Char) → List Char →
    Except String (List (List Char))
  | .outside, cur, toks, [] => .ok (shEmit toks cur)
  | .inSingle, _, _, [] => .error "No closing quotation"
  | .inDouble, _, _, [] => .error "No closing quotation"
  | .outside, cur, toks, c :: cs =>
    if shSpace c then shlexLoop .outside none (shEmit toks cur) cs
    else if c = chSq then shlexLoop .inSingle (some (cur.getD [])) toks cs
    else if c = chDq then shlexLoop .inDouble (some (cur.getD [])) toks cs
    else if c = chBs then
      match cs with
      | [] => .error "No escaped character"
      | d :: ds => shlexLoop .outside (some (cur.getD [] ++ [d])) toks ds
    else shlexLoop .outside (some (cur.getD [] ++ [c])) toks cs
  | .inSingle, cur, toks, c :: cs =>
    if c = chSq then shlexLoop .outside cur toks cs
    else shlexLoop .inSingle (some (cur.getD [] ++ [c])) toks cs
  | .inDouble, cur, toks, c :: cs =>
    if c = chDq then shlexLoop .outside cur toks cs
    else if c = chBs then
      match cs with
      | [] => .error "No escaped character"
      | d :: ds =>
        if d = chDq ∨ d = chBs then shlexLoop .inDouble (some (cur.getD [] ++ [d])) toks ds
        else shlexLoop .inDouble (some (cur.getD [] ++ [chBs, d])) toks ds
    else shlexLoop .inDouble (some (cur.getD [] ++ [c])) toks cs

/-- `shlex.split(s, posix=True)`. -/
def shlexSplit (s : String) : Except String (List String) :=
  (shlexLoop .outside none [] s.data).map (·.map String.mk)

/-- The token list `_is_cmd_allowed` works on: `shlex.split` when it
parses, else the naive `str.split()` fallback (the `try`/`except` in the
source). -/
def tokensOf (cmd : String) : List String :=
  match shlexSplit cmd with
  | .ok ps => ps
  | .error _ => pySplitWs cmd

/-- `os.path.basename`: everything after the last `/`. -/
def basename (s : String) : String :=
  ((splitBy (· = '/') s.data).map String.mk).getLastD ""

/-- `bot/config.py` `Settings`, restricted to the fields the verified
handlers read (the allowlist is a list of strings; the frozenset of the source
is only ever used through membership, which is order-insensitive). -/
structure Settings where
  admin_ids : List Int
  base_dir : List String
  allowed_shell_prefixes : List String
  command_timeout_sec : Nat
  max_text_reply_chars : Nat
  max_upload_bytes : Nat
deriving DecidableEq

/-- `bot/handlers.py` `_is_cmd_allowed(cmd, settings)`. -/
def is_cmd_allowed (cmd : String) (settings : Settings) : Bool :=
  if settings.allowed_shell_prefixes = [] then true
  else
    match tokensOf cmd with
    | [] => false
    | [p0] =>
      (settings.allowed_shell_prefixes.map (fun a => lowerS (pyStrip a))).contains
        (lowerS (basename p0))
    | p0 :: p1 :: _ =>
      let first := if lowerS p0 = "sudo" then p1 else p0
      (settings.allowed_shell_prefixes.map (fun a => lowerS (pyStrip a))).contains
        (lowerS (basename first))

/-- The token whose basename is authorized, in the design-document
words: the first token, or the second when the first case-insensitively
equals the privilege-escalation prefix `sudo` and a second token exists;
none when the command is blank. -/
def selectedToken : List String → Option String
  | [] => none
  | [t] => some t
  | t :: u :: _ => some (if lowerS t = "sudo" then u else t)

/-- A concrete `Settings` value for evaluating the allowlist check (only
`allowed_shell_prefixes` matters to it). -/
def settingsWithAllow (allow : List String) : Settings :=
  { admin_ids := [], base_dir := [], allowed_shell_prefixes := allow,
    command_timeout_sec := 20, max_text_reply_chars := 3500,
    max_upload_bytes := 45 * 1024 * 1024 }

/-! ### Claim C4 -/

/-- Claim C4 (confirmed): with an empty allowlist `_is_cmd_allowed`
accepts every command; with a non-empty allowlist it accepts exactly the
commands whose selected token (first token, or second after a leading
case-insensitive `sudo`) has a lower-cased basename in the lower-cased
allowlist, where the tokens come from shell tokenization with a naive
whitespace-split fallback and a blank command yields no token and is
rejected.  In particular, with allowlist `{ls, echo}` the commands
`ls -la`, `sudo /bin/ls -la` and `ECHO hi` are accepted while `lsof -i`
and the empty command are rejected. -/
theorem c4_is_cmd_allowed_correct :
    (∀ cmd allow, allow = [] → is_cmd_allowed cmd (settingsWithAllow allow) = true) ∧
    (∀ cmd allow, allow ≠ [] →
      (is_cmd_allowed cmd (settingsWithAllow allow) = true ↔
        ∃ tok, selectedToken (tokensOf cmd) = some tok ∧
          (allow.map (fun a => lowerS (pyStrip a))).contains (lowerS (basename tok)) = true)) ∧
    is_cmd_allowed "ls -la" (settingsWithAllow ["ls", "echo"]) = true ∧
    is_cmd_allowed "sudo /bin/ls -la" (settingsWithAllow ["ls", "echo"]) = true ∧
    is_cmd_allowed "ECHO hi" (settingsWithAllow ["ls", "echo"]) = true ∧
    is_cmd_allowed "lsof -i" (settingsWithAllow ["ls", "echo"]) = false ∧
    is_cmd_allowed "" (settingsWithAllow ["ls", "echo"]) = false := by
  refine ⟨?_, ?_, by decide, by decide, by decide, by decide, by decide⟩
  · intro cmd allow h
    simp [is_cmd_allowed, settingsWithAllow, h]
  · intro cmd allow h
    unfold is_cmd_allowed selectedToken
    simp only [settingsWithAllow, h, if_neg]
    match tokensOf cmd with
    | [] => simp
    | [p0] => simp
    | p0 :: p1 :: rest => simp

/-! ### Access gate: `bot/security.py` `AdminOnlyMiddleware.__call__` -/

/-- The event shapes reaching the middleware, which accepts any
`TelegramObject`: a `Message` (optional sender, text and caption), a
`CallbackQuery` (optional sender and data), or any other shape — the
source inspects only these two `isinstance` cases, and `main.py`
registers the middleware on the dispatcher update observer, whose events
include `Update` wrappers that are neither. -/
inductive Event
  | message (from_user : Option Int) (text : Option String) (caption : Option String)
  | callback (from_user : Option Int) (cbdata : Option String)
  | other
deriving DecidableEq

/-- The `user_id` variable of the middleware (stays `None` for event
shapes the middleware does not inspect). -/
def eventUserId : Event → Option Int
  | .message fu _ _ => fu
  | .callback fu _ => fu
  | .other => none

/-- The `text` variable of the middleware: `event.text or event.caption
or ""` for messages, `event.data or ""` for callback queries; for any
other shape it stays `None`, rendered here as `""` (the source only uses
it through `text or ""` truthiness and log slicing). -/
def eventText : Event → String
  | .message _ t c => pyOrS t c
  | .callback _ d => d.getD ""
  | .other => ""

/-- The help/greeting bypass condition of the middleware: a `Message`
whose (non-empty) text lower-cases to something starting with `/start` or
`/help`; no other event shape qualifies. -/
def isHelpGreeting (ev : Event) : Bool :=
  match ev with
  | .message _ _ _ =>
    eventText ev ≠ "" &&
      (startsWithS (lowerS (eventText ev)) "/start" || startsWithS (lowerS (eventText ev)) "/help")
  | .callback _ _ => false
  | .other => false

/-- What the gate did with a request: whether the wrapped handler was
invoked, and the replies the middleware itself sent. -/
structure GateOutcome where
  callsHandler : Bool
  replies : List String
deriving DecidableEq

/-- The replies the denial branch sends: `Message` events get the long
denial text, `CallbackQuery` events the alert form, and any other event
shape matches neither `isinstance` branch, so nothing is sent at all. -/
def denyReplies : Event → List String
  | .message _ _ _ => ["Access denied. This bot is restricted to administrators."]
  | .callback _ _ => ["Access denied."]
  | .other => []

/-- Whether the middleware has a reply branch for this event shape (the
two `isinstance` cases of `bot/security.py`). -/
def hasReplyChannel : Event → Bool
  | .message _ _ _ => true
  | .callback _ _ => true
  | .other => false

/-- `bot/security.py` `AdminOnlyMiddleware.__call__`: allow `/start` and
`/help`-prefixed messages for everyone; otherwise deny unless the sender
id is present and in the admin set, sending the denial reply its
`isinstance` cases provide — which is no reply at all for an event that
is neither a `Message` nor a `CallbackQuery`. -/
def admin_gate (admin_ids : List Int) (ev : Event) : GateOutcome :=
  if isHelpGreeting ev then ⟨true, []⟩
  else
    match eventUserId ev with
    | none => ⟨false, denyReplies ev⟩
    | some uid => if uid ∈ admin_ids then ⟨true, []⟩ else ⟨false, denyReplies ev⟩

theorem denyReplies_visible (ev : Event) (hch : hasReplyChannel ev = true) :
    ∃ r, denyReplies ev = [r] ∧ startsWithS r "Access denied" = true := by
  cases ev with
  | message fu t c =>
    exact ⟨"Access denied. This bot is restricted to administrators.", rfl, rfl⟩
  | callback fu d => exact ⟨"Access denied.", rfl, rfl⟩
  | other => exact Bool.noConfusion hch

/-! ### Claim C3 -/

/-- Claim C3, as stated, is false on the code: the denial branch of the
middleware replies only inside its `Message` / `CallbackQuery`
`isinstance` cases, so an event of any other shape (notably the `Update`
wrappers the dispatcher update observer delivers) is denied with no
reply at all — a silent drop, which the claim forbids.  Concretely, a
non-`Message`, non-`CallbackQuery` event is denied (the handler is not
called) and the middleware sends nothing. -/
theorem c3_counterexample :
    (admin_gate [7] Event.other).callsHandler = false ∧
    (admin_gate [7] Event.other).replies = [] :=
  ⟨rfl, rfl⟩

/-- Claim C3 (corrected): for `Message` and `CallbackQuery` events the
access gate behaves as claimed — a help/greeting request is allowed
unconditionally, regardless of caller identity; every other request
calls the handler iff the caller identity is present and is a member of
the configured admin-identity set; and every denial of such an event
sends exactly one visible reply starting with `Access denied`.  An event
of any other shape, however, is always denied with no visible reply — a
silent drop. -/
theorem c3_admin_gate_correct :
    ∀ (admin_ids : List Int) (ev : Event),
      (isHelpGreeting ev = true → admin_gate admin_ids ev = ⟨true, []⟩) ∧
      (isHelpGreeting ev = false →
        ((admin_gate admin_ids ev).callsHandler = true ↔
          ∃ uid, eventUserId ev = some uid ∧ uid ∈ admin_ids)) ∧
      (hasReplyChannel ev = true →
        (admin_gate admin_ids ev).callsHandler = false →
        ∃ r, (admin_gate admin_ids ev).replies = [r] ∧ startsWithS r "Access denied" = true) ∧
      (hasReplyChannel ev = false → admin_gate admin_ids ev = ⟨false, []⟩) := by
  intro admin_ids ev
  refine ⟨?_, ?_, ?_, ?_⟩
  · intro h
    simp [admin_gate, h]
  · intro h
    unfold admin_gate
    simp only [h, Bool.false_eq_true, if_false]
    cases hu : eventUserId ev with
    | none => simp
    | some uid =>
      by_cases hm : uid ∈ admin_ids
      · simp [hm]
      · simp [hm]
  · intro hch h
    unfold admin_gate at h ⊢
    by_cases hh : isHelpGreeting ev = true
    · rw [if_pos hh] at h
      simp at h
    · rw [if_neg hh] at h ⊢
      revert h
      cases hu : eventUserId ev with
      | none =>
        intro _
        exact denyReplies_visible ev hch
      | some uid =>
        intro h
        dsimp only at h ⊢
        by_cases hm : uid ∈ admin_ids
        · rw [if_pos hm] at h
          simp at h
        · rw [if_neg hm] at h ⊢
          exact denyReplies_visible ev hch
  · intro hch
    cases ev with
    | message fu t c => exact Bool.noConfusion hch
    | callback fu d => exact Bool.noConfusion hch
    | other => rfl

/-! ### Claim C10 -/

/-- Claim C10 (confirmed): the help/greeting bypass is a prefix match on
the lower-cased message text, not an exact command match — every message
whose text (or caption, when the text is empty) starts case-insensitively
with `/start` or `/help`, including `/startXYZ` or `/helpme`, bypasses
the admin check entirely for every caller identity, and the gate calls
the handler with no denial reply. -/
theorem c10_help_prefix_bypass :
    ∀ (admin_ids : List Int) (fu : Option Int) (t c : Option String),
      (startsWithS (lowerS (pyOrS t c)) "/start" = true ∨
        startsWithS (lowerS (pyOrS t c)) "/help" = true) →
      admin_gate admin_ids (.message fu t c) = ⟨true, []⟩ := by
  intro admin_ids fu t c h
  have hne : pyOrS t c ≠ "" := by
    intro he
    rcases h with h | h <;> rw [he] at h <;> exact absurd h (by decide)
  have hg : isHelpGreeting (.message fu t c) = true := by
    unfold isHelpGreeting eventText
    rcases h with h | h <;> simp [hne, h]
  simp [admin_gate, hg]

/-- Witness for C10 at a concrete input: the message text `/startXYZ`
from a sender that is not in the (empty) admin set reaches the handler. -/
theorem c10_witness :
    admin_gate [] (.message (some 99) (some "/startXYZ") none) = ⟨true, []⟩ :=
  c10_help_prefix_bypass [] (some 99) (some "/startXYZ") none (Or.inl (by decide))

/-! ### Bounded executor: `bot/utils.py` `run_shell` -/

/-- `bot/utils.py` `CmdResult` (stdout/stderr are byte strings in the
source; this model carries them as strings, since every property proved
here concerns their textual content). -/
structure CmdResult where
  returncode : Int
  stdout : String
  stderr : String
deriving DecidableEq

/-- Child-process actions `run_shell` takes on its timeout path. -/
inductive ShellAction
  | kill
  | wait
deriving DecidableEq

/-- The behaviour of one spawned child process, as the input of the pure model:
whether `proc.communicate()` returns within the timeout, and what it
produces.  `partialStdout`/`partialStderr` are whatever output the child
emitted before a timeout kill (the source never reads them on that path);
`waitRaises` says whether the post-kill `proc.wait()` raises. -/
structure ChildRun where
  completesInTime : Bool
  returncode : Option Int
  stdout : String
  stderr : String
  partialStdout : String
  partialStderr : String
  waitRaises : Bool
deriving DecidableEq

/-- `bot/utils.py` `run_shell(cmd, timeout_sec)`: on normal completion,
the real exit code (`None` defaulting to 0) and the full buffers; on
timeout, kill the child, best-effort wait for it (errors swallowed), and
return the sentinel result `124` with empty stdout and a
`Timeout after Ns` stderr.  Returns the result together with the child
management actions performed. -/
def run_shell (child : ChildRun) (timeout_sec : Nat) : CmdResult × List ShellAction :=
  if child.completesInTime then
    (⟨child.returncode.getD 0, child.stdout, child.stderr⟩, [])
  else
    (⟨124, "", "Timeout after " ++ toString timeout_sec ++ "s"⟩, [.kill, .wait])

/-! ### Claim C5 -/

/-- Claim C5 (confirmed): whenever `run_shell` reaches the timeout, it
kills the child and then waits for it, and returns exit code 124, empty
stdout and stderr `Timeout after Ns` for the configured `N` — the same
result for every partial output the child produced before the kill and
whether or not the post-kill wait raises (partial output is discarded and
wait errors are swallowed). -/
theorem c5_run_shell_timeout (child : ChildRun) (t : Nat)
    (h : child.completesInTime = false) :
    run_shell child t = (⟨124, "", "Timeout after " ++ toString t ++ "s"⟩, [.kill, .wait]) ∧
    (∀ po pe w, run_shell
        { child with partialStdout := po, partialStderr := pe, waitRaises := w } t =
      run_shell child t) := by
  constructor
  · simp [run_shell, h]
  · intro po pe w
    simp [run_shell, h]

/-- Witness for C5 at a concrete input: a child that does not finish
within a 7-second timeout. -/
theorem c5_witness :
    run_shell ⟨false, some 3, "partial out", "partial err", "pp", "qq", true⟩ 7 =
      (⟨124, "", "Timeout after 7s"⟩, [.kill, .wait]) :=
  (c5_run_shell_timeout ⟨false, some 3, "partial out", "partial err", "pp", "qq", true⟩ 7 rfl).1

/-! ### Output router: `bot/utils.py` `text_preview_or_file` -/

/-- `bot/utils.py` `text_preview_or_file(text, max_chars,
filename_prefix)`.  The first component is the `(preview, file_path)`
pair the source returns; the second lists the files the call created,
each with its full written content.  `tmpDir` and `freshName` model the
directory and unique name `tempfile.mkstemp` picks. -/
def text_preview_or_file (text : String) (max_chars : Nat) (filenamePfx : String)
    (tmpDir freshName : String) : (Option String × Option String) × List (String × String) :=
  if text = "" then ((some "", none), [])
  else if text.length ≤ max_chars then ((some text, none), [])
  else
    let path := tmpDir ++ "/" ++ filenamePfx ++ "_" ++ freshName ++ ".txt"
    ((none, some path), [(path, text)])

theorem tpof_small (text : String) (max_chars : Nat) (filenamePfx tmpDir freshName : String)
    (h : text.length ≤ max_chars) :
    text_preview_or_file text max_chars filenamePfx tmpDir freshName = ((some text, none), []) := by
  unfold text_preview_or_file
  by_cases he : text = ""
  · subst he
    rfl
  · rw [if_neg he, if_pos h]

theorem tpof_large (text : String) (max_chars : Nat) (filenamePfx tmpDir freshName : String)
    (h : max_chars < text.length) :
    text_preview_or_file text max_chars filenamePfx tmpDir freshName =
      ((none, some (tmpDir ++ "/" ++ filenamePfx ++ "_" ++ freshName ++ ".txt")),
        [(tmpDir ++ "/" ++ filenamePfx ++ "_" ++ freshName ++ ".txt", text)]) := by
  unfold text_preview_or_file
  have he : text ≠ "" := by
    intro e
    rw [e] at h
    exact Nat.not_lt_zero max_chars h
  rw [if_neg he, if_neg (by omega)]

/-! ### Claim C6 -/

/-- Claim C6 (confirmed): `text_preview_or_file` yields the inline empty
payload for empty text; an inline payload with the text verbatim (and no
file created) whenever the length is within the ceiling; and, over the
ceiling, an artifact payload referencing a freshly created temporary file
whose name carries the configured prefix (with the `.txt` suffix) and
whose content is the full text; in every case exactly one of the two
variants is populated. -/
theorem c6_text_preview_or_file_correct :
    ∀ (text : String) (max_chars : Nat) (filenamePfx tmpDir freshName : String),
      (text = "" →
        text_preview_or_file text max_chars filenamePfx tmpDir freshName = ((some "", none), [])) ∧
      (text.length ≤ max_chars →
        text_preview_or_file text max_chars filenamePfx tmpDir freshName =
          ((some text, none), [])) ∧
      (max_chars < text.length →
        text_preview_or_file text max_chars filenamePfx tmpDir freshName =
          ((none, some (tmpDir ++ "/" ++ filenamePfx ++ "_" ++ freshName ++ ".txt")),
            [(tmpDir ++ "/" ++ filenamePfx ++ "_" ++ freshName ++ ".txt", text)])) ∧
      (((text_preview_or_file text max_chars filenamePfx tmpDir freshName).1.1.isSome ∧
          (text_preview_or_file text max_chars filenamePfx tmpDir freshName).1.2 = none) ∨
        ((text_preview_or_file text max_chars filenamePfx tmpDir freshName).1.1 = none ∧
          (text_preview_or_file text max_chars filenamePfx tmpDir freshName).1.2.isSome)) := by
  intro text max_chars filenamePfx tmpDir freshName
  refine ⟨?_, tpof_small text max_chars filenamePfx tmpDir freshName,
    tpof_large text max_chars filenamePfx tmpDir freshName, ?_⟩
  · intro he
    subst he
    rfl
  · by_cases h : text.length ≤ max_chars
    · rw [tpof_small text max_chars filenamePfx tmpDir freshName h]
      left
      exact ⟨rfl, rfl⟩
    · rw [tpof_large text max_chars filenamePfx tmpDir freshName (by omega)]
      right
      exact ⟨rfl, rfl⟩

/-- Witness for C6 at a concrete input: an 11-character text over a
ceiling of 5 is spooled to a `/tmp/ls_x7.txt` artifact holding the full
text. -/
theorem c6_witness :
    text_preview_or_file "hello world" 5 "ls" "/tmp" "x7" =
      ((none, some "/tmp/ls_x7.txt"), [("/tmp/ls_x7.txt", "hello world")]) :=
  (c6_text_preview_or_file_correct "hello world" 5 "ls" "/tmp" "x7").2.2.1 (by decide)

/-! ### Handler embedding: `bot/handlers.py` as effect traces -/

/-- The externally visible effects a handler performs, in order. -/
inductive Effect
  | answer (text : String)
  | runShell (cmd : String) (timeoutSec : Nat)
  | answerDocument (path : String)
  | tryRemove (path : String)
  | mkdirParents (dir : List String)
  | botDownload (dest : List String)
deriving DecidableEq

/-- `bot/handlers.py` `_get_args(message)`: the text after the command
word.  `text.split(maxsplit=1)` on a non-empty all-whitespace text
returns `[]`, so the subsequent `parts[1]` raises `IndexError`; that
(propagating) exception is the `error` case. -/
def get_args (text caption : Option String) : Except Unit String :=
  if pyOrS text caption = "" then Except.ok ""
  else
    match pySplitMax1 (pyOrS text caption) with
    | [] => Except.error ()
    | [_] => Except.ok ""
    | _ :: rest :: _ => Except.ok (pyStrip rest)

/-- `bot/handlers.py` `_send_text_or_file`: inline text is answered
directly; an artifact is sent as a document and then removed, the removal
wrapped in `contextlib.suppress(Exception)` inside a `finally`.
`answerFails` / `deliveryFails` / `removeFails` say which of the three
I/O calls would raise; the returned Bool is whether the call raises to
its caller.  The removal attempt is unconditional on the artifact path
and its failure is suppressed, so `removeFails` cannot influence the
outcome.  (A `(none, none)` payload cannot be produced; on it the source
would raise while delivering `None`.) -/
def send_text_or_file (text : String) (max_chars : Nat) (filenamePfx tmpDir freshName : String)
    (answerFails deliveryFails removeFails : Bool) : List Effect × Bool :=
  match (text_preview_or_file text max_chars filenamePfx tmpDir freshName).1 with
  | (some preview, _) => ([.answer preview], answerFails)
  | (none, some path) => ([.answerDocument path, .tryRemove path], deliveryFails)
  | (none, none) => ([], true)

/-- The reply text `cmd_sh`/`bang_shell` assemble from the command and
its result (stdout/stderr are strings in this model, so the
`decode("utf-8", errors="replace")` steps are identities). -/
def composeOutput (cmd : String) (res : CmdResult) : String :=
  pyStrip ("$ <code>" ++ cmd ++ "</code>\n"
    ++ (if res.stdout ≠ "" then res.stdout else "")
    ++ (if res.stderr ≠ "" then
          (if res.stdout ≠ "" then "\n[stderr]\n" else "") ++ res.stderr
        else "")
    ++ "\n[exit " ++ toString res.returncode ++ "]")

/-- `bot/handlers.py` `cmd_sh`: parse arguments, check the allowlist,
then run the command and deliver the composed output. -/
def cmd_sh (st : Settings) (text caption : Option String) (child : ChildRun)
    (tmpDir freshName : String) (answerFails deliveryFails removeFails : Bool) : List Effect :=
  match get_args text caption with
  | .error _ => []
  | .ok args =>
    if args = "" then [.answer "Usage: /sh <command>"]
    else if is_cmd_allowed args st = false then [.answer "Command not allowed by policy."]
    else
      .runShell args st.command_timeout_sec ::
        (send_text_or_file (composeOutput args (run_shell child st.command_timeout_sec).1)
          st.max_text_reply_chars "cmd" tmpDir freshName
          answerFails deliveryFails removeFails).1

/-- `bot/handlers.py` `bang_shell`: everything after the leading `!`,
stripped; a blank command returns silently. -/
def bang_shell (st : Settings) (text : Option String) (child : ChildRun)
    (tmpDir freshName : String) (answerFails deliveryFails removeFails : Bool) : List Effect :=
  if pyStrip (strTail (text.getD "")) = "" then []
  else if is_cmd_allowed (pyStrip (strTail (text.getD ""))) st = false then
    [.answer "Command not allowed by policy."]
  else
    .runShell (pyStrip (strTail (text.getD ""))) st.command_timeout_sec ::
      (send_text_or_file
        (composeOutput (pyStrip (strTail (text.getD "")))
          (run_shell child st.command_timeout_sec).1)
        st.max_text_reply_chars "cmd" tmpDir freshName
        answerFails deliveryFails removeFails).1

theorem runShell_not_in_send (text : String) (mc : Nat) (pfx dir fresh : String)
    (af df rf : Bool) (c : String) (t : Nat) :
    Effect.runShell c t ∉ (send_text_or_file text mc pfx dir fresh af df rf).1 := by
  unfold send_text_or_file
  rcases h : (text_preview_or_file text mc pfx dir fresh).1 with ⟨p1, p2⟩
  cases p1 <;> cases p2 <;> simp

/-! ### Claim C7 -/

/-- Claim C7 (confirmed): in `cmd_sh` and `bang_shell`, authorization
strictly precedes execution and is never skipped — a `run_shell` call for
a command appears in the effect trace of a handler only when
`_is_cmd_allowed` returned true for that very command, and whenever the
authorizer rejects the (non-empty) command the entire handler trace is
the single denial reply, so `run_shell` is never called. -/
theorem c7_auth_precedes_execution :
    ∀ (st : Settings) (text caption btext : Option String) (child : ChildRun)
      (tmpDir freshName : String) (af df rf : Bool),
      (∀ c t, Effect.runShell c t ∈ cmd_sh st text caption child tmpDir freshName af df rf →
        is_cmd_allowed c st = true) ∧
      (∀ c t, Effect.runShell c t ∈ bang_shell st btext child tmpDir freshName af df rf →
        is_cmd_allowed c st = true) ∧
      (∀ args, get_args text caption = .ok args → args ≠ "" →
        is_cmd_allowed args st = false →
        cmd_sh st text caption child tmpDir freshName af df rf =
          [.answer "Command not allowed by policy."]) ∧
      (pyStrip (strTail (btext.getD "")) ≠ "" →
        is_cmd_allowed (pyStrip (strTail (btext.getD ""))) st = false →
        bang_shell st btext child tmpDir freshName af df rf =
          [.answer "Command not allowed by policy."]) := by
  intro st text caption btext child tmpDir freshName af df rf
  refine ⟨?_, ?_, ?_, ?_⟩
  · intro c t hmem
    unfold cmd_sh at hmem
    revert hmem
    cases hg : get_args text caption with
    | error e => intro hmem; simp at hmem
    | ok args =>
      intro hmem
      dsimp only at hmem
      by_cases ha : args = ""
      · rw [if_pos ha] at hmem
        simp at hmem
      · rw [if_neg ha] at hmem
        by_cases hb : is_cmd_allowed args st = false
        · rw [if_pos hb] at hmem
          simp at hmem
        · rw [if_neg hb] at hmem
          rcases List.mem_cons.mp hmem with heq | hin
          · cases heq
            exact eq_true_of_ne_false hb
          · exact absurd hin (runShell_not_in_send _ _ _ _ _ _ _ _ _ _)
  · intro c t hmem
    unfold bang_shell at hmem
    by_cases ha : pyStrip (strTail (btext.getD "")) = ""
    · rw [if_pos ha] at hmem
      simp at hmem
    · rw [if_neg ha] at hmem
      by_cases hb : is_cmd_allowed (pyStrip (strTail (btext.getD ""))) st = false
      · rw [if_pos hb] at hmem
        simp at hmem
      · rw [if_neg hb] at hmem
        rcases List.mem_cons.mp hmem with heq | hin
        · cases heq
          exact eq_true_of_ne_false hb
        · exact absurd hin (runShell_not_in_send _ _ _ _ _ _ _ _ _ _)
  · intro args hg ha hb
    unfold cmd_sh
    rw [hg]
    dsimp only
    rw [if_neg ha, if_pos hb]
  · intro ha hb
    unfold bang_shell
    rw [if_neg ha, if_pos hb]

/-! ### Claim C8 -/

/-- Claim C8 (confirmed): when `_send_text_or_file` takes the artifact
branch, the deletion of the artifact file is attempted unconditionally
right after the delivery attempt — for every outcome of the delivery,
including a failing one — and the call raises to its caller exactly when
the delivery failed: a failure of the deletion itself (`rf`) never
propagates as a request failure. -/
theorem c8_artifact_cleanup (text : String) (mc : Nat) (pfx dir fresh : String)
    (af df rf : Bool) (h : mc < text.length) :
    (send_text_or_file text mc pfx dir fresh af df rf).1 =
      [.answerDocument (dir ++ "/" ++ pfx ++ "_" ++ fresh ++ ".txt"),
        .tryRemove (dir ++ "/" ++ pfx ++ "_" ++ fresh ++ ".txt")] ∧
    (send_text_or_file text mc pfx dir fresh af df rf).2 = df := by
  have h1 : (text_preview_or_file text mc pfx dir fresh).1 =
      (none, some (dir ++ "/" ++ pfx ++ "_" ++ fresh ++ ".txt")) := by
    rw [tpof_large text mc pfx dir fresh h]
  unfold send_text_or_file
  rw [h1]
  exact ⟨rfl, rfl⟩

/-- Witness for C8 at a concrete input: a 7-character output over a
ceiling of 3 is delivered as a document and the artifact is removed, with
delivery failing (`df = true`) and removal also failing (`rf = true`) —
the removal is still attempted and only the delivery failure
propagates. -/
theorem c8_witness :
    (send_text_or_file "abcdefg" 3 "cmd" "/tmp" "z9" false true true).1 =
      [.answerDocument "/tmp/cmd_z9.txt", .tryRemove "/tmp/cmd_z9.txt"] ∧
    (send_text_or_file "abcdefg" 3 "cmd" "/tmp" "z9" false true true).2 = true :=
  c8_artifact_cleanup "abcdefg" 3 "cmd" "/tmp" "z9" false true true (by decide)

/-! ### File transfer handlers: `cmd_download` and `cmd_upload` -/

/-- Render a component-list path as the absolute path string handed to
the transport when sending a document. -/
def joinAbs (l : List String) : String := "/" ++ String.intercalate "/" l

/-- `bot/handlers.py` `cmd_download`: argument parsing, the two path
checks, existence/type check, then the size ceiling, and only then the
document transfer.  `pathExists`/`pathIsFile` are the filesystem answers
for the resolved path, `size` its `stat().st_size`, and `hb` is
`human_bytes` (its float formatting is not modelled; only that the
oversize reply embeds the two rendered sizes). -/
def cmd_download (st : Settings) (absR : String → List String) (hb : Nat → String)
    (text caption : Option String) (pathExists pathIsFile : Bool) (size : Nat) : List Effect :=
  match get_args text caption with
  | .error _ => []
  | .ok arg =>
    if arg = "" then [.answer "Usage: /download <path>"]
    else
      match ensure_inside st.base_dir (resolve_under absR st.base_dir arg) with
      | .error _ => [.answer "Path not allowed"]
      | .ok _ =>
        if pathExists = false ∨ pathIsFile = false then [.answer "File not found"]
        else if st.max_upload_bytes < size then
          [.answer ("File too large to upload: " ++ hb size ++ " > " ++ hb st.max_upload_bytes)]
        else [.answerDocument (joinAbs (resolve_under absR st.base_dir arg))]

/-- `bot/handlers.py` `cmd_upload`: attachment and argument checks, the
two path checks, then the size ceiling (`file_size or 0`), and only then
the directory creation and the transfer into the target.  `mkdirRaises` /
`downloadRaises` say whether those two calls (wrapped in one `try`)
raise; `errText` is the rendered exception and `savedSize` the uploaded
on-disk size of the file reported on success (its `relative_to` rendering is
the path minus the already-resolved base components). -/
def cmd_upload (st : Settings) (absR : String → List String) (hb : Nat → String)
    (hasDocument : Bool) (text caption : Option String) (fileSize : Option Nat)
    (mkdirRaises downloadRaises : Bool) (errText : String) (savedSize : Nat) : List Effect :=
  if hasDocument = false then [.answer "Attach a file and use caption: /upload <target_path>"]
  else
    match get_args text caption with
    | .error _ => []
    | .ok arg =>
      if arg = "" then
        [.answer "Usage: attach file with caption \x27/upload <target_path>\x27"]
      else
        match ensure_inside st.base_dir (resolve_under absR st.base_dir arg) with
        | .error _ => [.answer "Path not allowed"]
        | .ok _ =>
          if st.max_upload_bytes < (fileSize.getD 0) then
            [.answer ("File too large: " ++ hb (fileSize.getD 0) ++ " > "
              ++ hb st.max_upload_bytes)]
          else if mkdirRaises then
            [.mkdirParents (resolve_under absR st.base_dir arg).dropLast,
              .answer ("Upload failed: " ++ errText)]
          else if downloadRaises then
            [.mkdirParents (resolve_under absR st.base_dir arg).dropLast,
              .botDownload (resolve_under absR st.base_dir arg),
              .answer ("Upload failed: " ++ errText)]
          else
            [.mkdirParents (resolve_under absR st.base_dir arg).dropLast,
              .botDownload (resolve_under absR st.base_dir arg),
              .answer ("Saved to "
                ++ String.intercalate "/"
                  ((resolve_under absR st.base_dir arg).drop (resolveAbs st.base_dir).length)
                ++ " (" ++ hb savedSize ++ ")")]

/-! ### Claim C9 -/

/-- Claim C9 (confirmed): for every download or upload request whose
payload size exceeds `max_upload_bytes`, the oversize condition is
checked before any transfer is attempted — the trace contains no document
transfer (and, for uploads, no directory creation and no write to the
target) whatever the other inputs are — and when the request passes all
the earlier checks, the handler replies with the human-readable
`too large` message and stops there. -/
theorem c9_oversize_checked_before_transfer :
    ∀ (st : Settings) (absR : String → List String) (hb : Nat → String)
      (text caption utext ucaption : Option String) (pex pfile : Bool) (size : Nat)
      (hasDoc : Bool) (fileSize : Option Nat) (mkr dlr : Bool)
      (errText : String) (savedSize : Nat),
      (st.max_upload_bytes < size →
        ∀ p, Effect.answerDocument p ∉
          cmd_download st absR hb text caption pex pfile size) ∧
      (∀ arg, get_args text caption = .ok arg → arg ≠ "" →
        ensure_inside st.base_dir (resolve_under absR st.base_dir arg) = .ok () →
        pex = true → pfile = true → st.max_upload_bytes < size →
        cmd_download st absR hb text caption pex pfile size =
          [.answer ("File too large to upload: " ++ hb size ++ " > "
            ++ hb st.max_upload_bytes)]) ∧
      (st.max_upload_bytes < fileSize.getD 0 →
        ∀ d, Effect.botDownload d ∉
            cmd_upload st absR hb hasDoc utext ucaption fileSize mkr dlr errText savedSize ∧
          Effect.mkdirParents d ∉
            cmd_upload st absR hb hasDoc utext ucaption fileSize mkr dlr errText savedSize) ∧
      (∀ arg, hasDoc = true → get_args utext ucaption = .ok arg → arg ≠ "" →
        ensure_inside st.base_dir (resolve_under absR st.base_dir arg) = .ok () →
        st.max_upload_bytes < fileSize.getD 0 →
        cmd_upload st absR hb hasDoc utext ucaption fileSize mkr dlr errText savedSize =
          [.answer ("File too large: " ++ hb (fileSize.getD 0) ++ " > "
            ++ hb st.max_upload_bytes)]) := by
  intro st absR hb text caption utext ucaption pex pfile size hasDoc fileSize mkr dlr
    errText savedSize
  refine ⟨?_, ?_, ?_, ?_⟩
  · intro hsz p
    unfold cmd_download
    cases hg : get_args text caption with
    | error e => simp
    | ok arg =>
      dsimp only
      by_cases ha : arg = ""
      · rw [if_pos ha]
        simp
      · rw [if_neg ha]
        cases he : ensure_inside st.base_dir (resolve_under absR st.base_dir arg) with
        | error e => simp
        | ok u =>
          dsimp only
          by_cases hnf : pex = false ∨ pfile = false
          · rw [if_pos hnf]
            simp
          · rw [if_neg hnf, if_pos hsz]
            simp
  · intro arg hg ha he hpex hpfile hsz
    unfold cmd_download
    rw [hg]
    dsimp only
    rw [if_neg ha, he]
    dsimp only
    rw [if_neg (by simp [hpex, hpfile]), if_pos hsz]
  · intro hsz d
    unfold cmd_upload
    by_cases hd : hasDoc = false
    · rw [if_pos hd]
      simp
    · rw [if_neg hd]
      cases hg : get_args utext ucaption with
      | error e => simp
      | ok arg =>
        dsimp only
        by_cases ha : arg = ""
        · rw [if_pos ha]
          simp
        · rw [if_neg ha]
          cases he : ensure_inside st.base_dir (resolve_under absR st.base_dir arg) with
          | error e => simp
          | ok u =>
            dsimp only
            rw [if_pos hsz]
            simp
  · intro arg hd hg ha he hsz
    unfold cmd_upload
    rw [if_neg (by simp [hd]), hg]
    dsimp only
    rw [if_neg ha, he]
    dsimp only
    rw [if_pos hsz]

end BotCtl
